import Mathlib

/-!
Shallow embedding of `storagefancontrol.py`, a chassis fan controller driven
by hard-drive temperatures.  All configuration values in the program are read
with `config.getint`, temperatures are `int(...)` results, and the PID state
is seeded from integers, so the arithmetic of the PID controller and of the
PWM clamping is integer arithmetic and is modelled over `Int`.  The two
places where Python float arithmetic appears (`value / 2` in the rear-zone
computation and `float(pwm_max) / 100` in `set_fan_speed`) are modelled
exactly over `ℚ`; the string processing of SMART output is modelled over
`List Char` with the semantics of the Python string operations used.
-/

/-- State of the `PID` class (`storagefancontrol.py`, lines 31-83).
`set_point` is set by `set_target_value` from `config.getint`, hence an
integer; the code's `int(self.set_point)` is then the identity.  The fields
`P_value`, `I_value`, `D_value` are assigned by `update` and read by `log`. -/
structure PIDState where
  Kp : Int
  Ki : Int
  Kd : Int
  Derivator : Int
  Integrator : Int
  Integrator_max : Int
  Integrator_min : Int
  set_point : Int
  error : Int
  P_value : Int
  I_value : Int
  D_value : Int
  deriving Repr, DecidableEq

/-- `PID.update` (lines 55-77), translated statement by statement.  Returns
the mutated state together with the returned `PID` output value. -/
def pidUpdate (s : PIDState) (current_value : Int) : PIDState × Int :=
  let error := current_value - s.set_point
  let P_value := s.Kp * error
  let D_value := s.Kd * (error + s.Derivator)
  let Derivator := error
  let Integrator0 := s.Integrator + error
  let Integrator :=
    if Integrator0 > s.Integrator_max then s.Integrator_max
    else if Integrator0 < s.Integrator_min then s.Integrator_min
    else Integrator0
  let I_value := Integrator * s.Ki
  ({ s with
      error := error
      P_value := P_value
      D_value := D_value
      Derivator := Derivator
      Integrator := Integrator
      I_value := I_value },
   P_value + I_value + D_value)

/-- Clamp `x` into the interval `[lo, hi]`, the spec's
`clamp(x, lo, hi)` pseudo-function. -/
def specClamp (x lo hi : Int) : Int := min hi (max lo x)

/-- The spec's discrete PID step, written from the spec pseudocode:
`error = currentValue - setPoint; P_term = Kp * error;
D_term = Kd * (error + derivator); derivator = error;
integrator = clamp(integrator + error, integratorMin, integratorMax);
I_term = Ki * integrator; output = P_term + I_term + D_term`. -/
def pidSpecStep (s : PIDState) (current_value : Int) : PIDState × Int :=
  let error := current_value - s.set_point
  let P_term := s.Kp * error
  let D_term := s.Kd * (error + s.Derivator)
  let derivator := error
  let integrator := specClamp (s.Integrator + error) s.Integrator_min s.Integrator_max
  let I_term := s.Ki * integrator
  ({ s with
      error := error
      P_value := P_term
      D_value := D_term
      Derivator := derivator
      Integrator := integrator
      I_value := I_term },
   P_term + I_term + D_term)

/-- A concrete PID state used in witnesses (gains 2/1/1, integrator seeded
at 0 with bounds [0, 64], target temperature 40). -/
def pidDemo : PIDState := ⟨2, 1, 1, 0, 0, 64, 0, 40, 0, 0, 0, 0⟩

/-- State of the `FanControl` class (lines 209-316): PWM bounds and safety
value, last requested fan percentage, current and previous raw PWM codes. -/
structure FCState where
  pwm_max : Int
  pwm_min : Int
  pwm_safety : Int
  fan_speed : Int
  pwm_value : Int
  previous_pwm_value : Int
  deriving Repr, DecidableEq

/-- `FanControl.__init__` defaults (lines 217-230). -/
def initFanControl : FCState := ⟨64, 1, 32, 50, 0, 0⟩

/-- A fan-control state whose previous PWM code is already 50. -/
def fcPrevFifty : FCState := { initFanControl with previous_pwm_value := 50 }

/-- The value clamping at the top of `set_pwm` (lines 252-261):
`value = pwm_max if value > pwm_max else value`, then values below
`pwm_min` are forced to `0` (BIOS automatic control). -/
def clampPwm (c : FCState) (value : Int) : Int :=
  let v1 := if value > c.pwm_max then c.pwm_max else value
  if v1 < c.pwm_min then 0 else v1

/-- The intermediate rear-zone value (lines 264-269):
`raw_rear = value / 2` (Python float division, modelled exactly on `ℚ`)
when `value < 40`, else `value`. -/
def rawRear (value : Int) : ℚ := if value < 40 then (value : ℚ) / 2 else (value : ℚ)

/-- The final rear-zone code (lines 271-272): a computed rear value below
`20` is replaced by `"00"` (automatic mode), modelled as `0`. -/
def rearCode (value : Int) : ℚ := if rawRear value < 20 then 0 else rawRear value

/-- `FanControl.set_pwm` (lines 238-306).  Returns the mutated state and,
when the hardware write is issued, the zone codes passed to the fan driver
as `(REAR, FRNT1, FRNT2)` (the CPU zone is the constant `0x00`).  The
stored `pwm_value` is always updated; `previous_pwm_value` is updated only
when the write is issued. -/
def setPwm (c : FCState) (value : Int) : FCState × Option (ℚ × Int × Int) :=
  let v := clampPwm c value
  let cmd := (rearCode v, v, v)
  let c1 := { c with pwm_value := v }
  if c1.previous_pwm_value ≠ v then
    ({ c1 with previous_pwm_value := v }, some cmd)
  else
    (c1, none)

/-- Python `int(q)` on a real number: truncation toward zero. -/
def pyInt (q : ℚ) : Int := if q < 0 then ⌈q⌉ else ⌊q⌋

/-- The raw PWM code computed by `FanControl.set_fan_speed` (lines 313-316):
`one_percent = float(pwm_max) / 100; pwm = percent * one_percent;
int(pwm)`, modelled exactly over `ℚ`. -/
def fanSpeedPwm (c : FCState) (percent : Int) : Int :=
  pyInt ((percent : ℚ) * ((c.pwm_max : ℚ) / 100))

/-- Modelled from the spec: the conversion the spec attributes to
`setFanSpeedPercent`, namely `round(percent * pwmMax / 100)` (rounding to
nearest), to be compared with `fanSpeedPwm` taken from the source. -/
def specFanSpeedPwm (c : FCState) (percent : Int) : Int :=
  round ((percent : ℚ) * (c.pwm_max : ℚ) / 100)

/-- `FanControl.set_fan_speed` (lines 308-316): store the percentage, then
delegate the converted raw code to `set_pwm`. -/
def setFanSpeed (c : FCState) (percent : Int) : FCState × Option (ℚ × Int × Int) :=
  let c1 := { c with fan_speed := percent }
  setPwm c1 (fanSpeedPwm c1 percent)

/-- The projection of an `FCState` onto its configuration fields, which
`set_pwm` and `set_fan_speed` never modify. -/
def fcConfig (c : FCState) : Int × Int × Int := (c.pwm_min, c.pwm_max, c.pwm_safety)

/-- The reduction loop of `Smart.get_highest_temperature` (lines 196-206):
`highest = 0`, then for each reading, replace `highest` when the reading
exceeds it. -/
def getHighestTemperature (readings : List Int) : Int :=
  readings.foldl (fun highest t => if t > highest then t else highest) 0

/-- Whether `pat` occurs at the head of `l`. -/
def leadsWith : List Char → List Char → Bool
  | [], _ => true
  | _ :: _, [] => false
  | p :: ps, c :: cs => p == c && leadsWith ps cs

/-- The suffix of `l` after the first occurrence of `pat`, if any. -/
def afterFirst (pat : List Char) : List Char → Option (List Char)
  | [] => if leadsWith pat [] then some [] else none
  | c :: rest =>
    if leadsWith pat (c :: rest) then some ((c :: rest).drop pat.length)
    else afterFirst pat rest

/-- `re.search(param + "(.*)", data)` restricted to a literal `param` (as in
the only call site, `param = "Temperature_Celsius"`): the text after the
first occurrence of `param`, up to the end of its line (`.` does not match
a newline), or `none` when `param` does not occur. -/
def reGroup1 (data param : String) : Option String :=
  (afterFirst param.data data.data).map fun rest =>
    String.mk (rest.takeWhile fun c => c != '\n')

/-- Fuelled worker for Python `str.split(sep)` with a non-empty separator. -/
def splitGo (sep : List Char) : Nat → List Char → List Char → List (List Char)
  | 0, acc, l => [acc.reverse ++ l]
  | _ + 1, acc, [] => [acc.reverse]
  | fuel + 1, acc, c :: cs =>
    if leadsWith sep (c :: cs) then
      acc.reverse :: splitGo sep fuel [] ((c :: cs).drop sep.length)
    else
      splitGo sep fuel (c :: acc) cs

/-- Python `s.split(sep)` for a non-empty separator: split on every
non-overlapping occurrence, keeping empty pieces. -/
def pySplit (s sep : String) : List String :=
  (splitGo sep.data (s.data.length + 1) [] s.data).map String.mk

/-- The expression `parts[i].split(" ")[1]` from
`Smart.get_parameter_from_smart`: `none` models an `IndexError`. -/
def trySecondWord (parts : List String) (i : Nat) : Option String :=
  match parts.get? i with
  | none => none
  | some seg => (pySplit seg " ").get? 1

/-- `Smart.get_parameter_from_smart` (lines 155-178).  `Except.ok none`
models the `return 0` branch (regex does not match), `Except.ok (some m)`
a returned string, and `Except.error ()` an exception escaping the
function (an `IndexError` raised inside the bare `except:` handler). -/
def pyGetParameter (data param : String) (distance : Nat) : Except Unit (Option String) :=
  match reGroup1 data param with
  | none => Except.ok none
  | some tmp =>
    let parts := pySplit tmp "   "
    let d := if parts.length ≤ distance then parts.length - 1 else distance
    match trySecondWord parts d with
    | some model => Except.ok (some model)
    | none =>
      match trySecondWord parts (d + 1) with
      | some model => Except.ok (some model)
      | none => Except.error ()

/-- The numeric value of a digit string. -/
def digitsVal (l : List Char) : Nat :=
  l.foldl (fun n c => 10 * n + (c.toNat - 48)) 0

/-- Python `int(s)` on a string: strip surrounding whitespace, allow an
optional sign followed by at least one digit; `none` models `ValueError`. -/
def pyParseInt (s : String) : Option Int :=
  let l1 := s.data.dropWhile Char.isWhitespace
  let l2 := (l1.reverse.dropWhile Char.isWhitespace).reverse
  match l2 with
  | [] => none
  | c :: rest =>
    if c == '-' then
      if !rest.isEmpty && rest.all Char.isDigit then some (-(digitsVal rest : Int)) else none
    else if c == '+' then
      if !rest.isEmpty && rest.all Char.isDigit then some ((digitsVal rest : Int)) else none
    else if (c :: rest).all Char.isDigit then some ((digitsVal (c :: rest) : Int)) else none

/-- `Smart.get_temperature` (lines 180-188):
`int(get_parameter_from_smart(smart_data, "Temperature_Celsius", 10))`
applied to one device's raw SMART output.  `Except.error ()` models an
exception (either escaping the parameter lookup, or a `ValueError` from
`int` on a non-numeric string). -/
def getTemperature (data : String) : Except Unit Int :=
  match pyGetParameter data "Temperature_Celsius" 10 with
  | Except.error e => Except.error e
  | Except.ok none => Except.ok 0
  | Except.ok (some s) =>
    match pyParseInt s with
    | some n => Except.ok n
    | none => Except.error ()

/-- `pool.map(self.get_temperature, self.block_devices)` (line 198): the
per-device readings are collected; an exception in any worker is re-raised
by `map` in the caller and aborts the pass. -/
def collectTemps : List String → Except Unit (List Int)
  | [] => Except.ok []
  | d :: rest =>
    match getTemperature d with
    | Except.error e => Except.error e
    | Except.ok t =>
      match collectTemps rest with
      | Except.error e => Except.error e
      | Except.ok ts => Except.ok (t :: ts)

/-- One full sampling pass of `Smart.get_highest_temperature` over the raw
SMART outputs of the device set: collect all readings, then reduce. -/
def temperaturePass (outputs : List String) : Except Unit Int :=
  match collectTemps outputs with
  | Except.error e => Except.error e
  | Except.ok ts => Except.ok (getHighestTemperature ts)

/-- The mutable state of the control loop: the chassis fan state and the
PID state. -/
structure SysState where
  chassis : FCState
  pid : PIDState
  deriving Repr, DecidableEq

/-- One iteration of the `while True` loop in `main` (lines 403-408): feed
the sampled temperature to the PID controller and actuate the fans with
its output via `set_fan_speed`. -/
def loopIter (s : SysState) (temp : Int) : SysState :=
  let r := pidUpdate s.pid temp
  let c := setFanSpeed s.chassis r.2
  { chassis := c.1, pid := r.1 }

/-- `main` (lines 385-412) on a run that is terminated by an interrupt:
startup write `set_pwm(pwm_min)` (line 400), the loop iterations for the
sampled temperatures, then the `except (KeyboardInterrupt, SystemExit)`
handler `set_pwm(pwm_safety); sys.exit(1)` (lines 410-412).  Returns the
final state and the process exit status. -/
def runMainInterrupted (c0 : FCState) (p0 : PIDState) (temps : List Int) : SysState × Int :=
  let start : SysState := { chassis := (setPwm c0 c0.pwm_min).1, pid := p0 }
  let s := temps.foldl loopIter start
  let cF := (setPwm s.chassis s.chassis.pwm_safety).1
  ({ chassis := cF, pid := s.pid }, 1)

/-! ## Helper lemmas -/

theorem clamp_eq_specClamp (x lo hi : Int) (h : lo ≤ hi) :
    (if x > hi then hi else if x < lo then lo else x) = specClamp x lo hi := by
  unfold specClamp
  split_ifs <;> omega

theorem setPwm_pwm_value_eq (c : FCState) (v : Int) :
    (setPwm c v).1.pwm_value = clampPwm c v := by
  unfold setPwm
  dsimp only
  split <;> rfl

theorem setPwm_previous_eq (c : FCState) (v : Int) :
    (setPwm c v).1.previous_pwm_value = clampPwm c v := by
  unfold setPwm
  dsimp only
  split
  · rfl
  · rename_i h
    exact not_not.mp h

theorem setPwm_write_none_iff (c : FCState) (v : Int) :
    (setPwm c v).2 = none ↔ clampPwm c v = c.previous_pwm_value := by
  unfold setPwm
  dsimp only
  split
  · rename_i h
    simp only [reduceCtorEq, false_iff]
    exact fun hh => h hh.symm
  · rename_i h
    simp only [true_iff]
    exact (not_not.mp h).symm

theorem setPwm_snd_eq (c : FCState) (v : Int) :
    (setPwm c v).2 = if clampPwm c v = c.previous_pwm_value then none
      else some (rearCode (clampPwm c v), clampPwm c v, clampPwm c v) := by
  unfold setPwm
  dsimp only
  split
  · rename_i h
    rw [if_neg fun hh => h hh.symm]
  · rename_i h
    rw [if_pos (not_not.mp h).symm]

theorem clampPwm_congr (c d : FCState) (v : Int)
    (h1 : c.pwm_min = d.pwm_min) (h2 : c.pwm_max = d.pwm_max) :
    clampPwm c v = clampPwm d v := by
  unfold clampPwm
  rw [h1, h2]

theorem setPwm_fcConfig (c : FCState) (v : Int) :
    fcConfig (setPwm c v).1 = fcConfig c := by
  unfold setPwm
  dsimp only
  split <;> rfl

theorem setFanSpeed_fcConfig (c : FCState) (p : Int) :
    fcConfig (setFanSpeed c p).1 = fcConfig c := by
  unfold setFanSpeed
  dsimp only
  rw [setPwm_fcConfig]
  rfl

theorem loopIter_fcConfig (s : SysState) (t : Int) :
    fcConfig (loopIter s t).chassis = fcConfig s.chassis := by
  unfold loopIter
  dsimp only
  rw [setFanSpeed_fcConfig]

theorem foldl_loopIter_fcConfig (temps : List Int) :
    ∀ s : SysState, fcConfig ((temps.foldl loopIter s).chassis) = fcConfig s.chassis := by
  induction temps with
  | nil => intro s; rfl
  | cons t ts ih =>
    intro s
    rw [List.foldl_cons, ih, loopIter_fcConfig]

theorem rearCode_of_lt40 (v : Int) (h : v < 40) : rearCode v = 0 := by
  unfold rearCode rawRear
  rw [if_pos h, if_pos]
  rw [div_lt_iff₀ (by norm_num : (0:ℚ) < 2)]
  norm_num
  exact_mod_cast h

theorem rearCode_of_not_lt40 (v : Int) (h : ¬ v < 40) : rearCode v = (v : ℚ) := by
  unfold rearCode rawRear
  rw [if_neg h, if_neg]
  push_neg
  have : (40 : ℚ) ≤ (v : ℚ) := by exact_mod_cast not_lt.mp h
  linarith

theorem getTemperature_of_no_match (data : String)
    (h : reGroup1 data "Temperature_Celsius" = none) :
    getTemperature data = Except.ok 0 := by
  simp only [getTemperature, pyGetParameter, h]

theorem collectTemps_all_zero (outs : List String) :
    (∀ o ∈ outs, reGroup1 o "Temperature_Celsius" = none) →
      collectTemps outs = Except.ok (List.replicate outs.length 0) := by
  induction outs with
  | nil => intro _; rfl
  | cons d rest ih =>
    intro h
    have hd := getTemperature_of_no_match d (h d (by simp))
    have hr := ih fun o ho => h o (by simp [ho])
    simp only [collectTemps, hd, hr, List.length_cons, List.replicate_succ]

theorem getHighestTemperature_replicate_zero (n : Nat) :
    getHighestTemperature (List.replicate n 0) = 0 := by
  induction n with
  | zero => rfl
  | succ n ih =>
    unfold getHighestTemperature at ih ⊢
    rw [List.replicate_succ, List.foldl_cons]
    simpa using ih

/-! ## Claims -/

/-- C1: `PID.update` follows exactly the spec's discrete PID step: the
resulting state and the returned output of the code's `update` coincide
with the spec pseudocode (error, P/I/D terms, derivator update, clamped
integrator update, and output sum), for any state whose integrator bounds
form an interval. -/
theorem pid_update_matches_spec (s : PIDState) (v : Int)
    (h : s.Integrator_min ≤ s.Integrator_max) :
    pidUpdate s v = pidSpecStep s v := by
  simp only [pidUpdate, pidSpecStep, clamp_eq_specClamp _ _ _ h, Int.mul_comm]

/-- Witness for C1 at a concrete state and input. -/
theorem pid_update_matches_spec_witness :
    pidDemo.Integrator_min ≤ pidDemo.Integrator_max ∧
      pidUpdate pidDemo 45 = pidSpecStep pidDemo 45 :=
  ⟨by decide, pid_update_matches_spec pidDemo 45 (by decide)⟩

/-- C2: after any call to `PID.update` the integrator lies in
`[Integrator_min, Integrator_max]`, whatever state the call starts from;
hence in any sequence of calls the invariant holds after each call, no
matter how many consecutive large errors are fed in. -/
theorem pid_integrator_invariant (s : PIDState) (v : Int)
    (h : s.Integrator_min ≤ s.Integrator_max) :
    s.Integrator_min ≤ (pidUpdate s v).1.Integrator ∧
      (pidUpdate s v).1.Integrator ≤ s.Integrator_max := by
  unfold pidUpdate
  dsimp only
  split_ifs <;> omega

/-- Witness for C2 with a very large error input. -/
theorem pid_integrator_invariant_witness :
    pidDemo.Integrator_min ≤ pidDemo.Integrator_max ∧
      (pidDemo.Integrator_min ≤ (pidUpdate pidDemo 100000).1.Integrator ∧
        (pidUpdate pidDemo 100000).1.Integrator ≤ pidDemo.Integrator_max) :=
  ⟨by decide, pid_integrator_invariant pidDemo 100000 (by decide)⟩

/-- C3: after `set_pwm(value)` the stored `pwm_value` is either `0`
(automatic mode) or lies in `[pwm_min, pwm_max]`; values above `pwm_max`
are clamped to `pwm_max`, and values strictly below `pwm_min` result in a
stored value of `0` (for any configuration with `pwm_min ≤ pwm_max`). -/
theorem set_pwm_stored_value_invariant (c : FCState) (v : Int)
    (h : c.pwm_min ≤ c.pwm_max) :
    ((setPwm c v).1.pwm_value = 0 ∨
      (c.pwm_min ≤ (setPwm c v).1.pwm_value ∧ (setPwm c v).1.pwm_value ≤ c.pwm_max)) ∧
    (v > c.pwm_max → (setPwm c v).1.pwm_value = c.pwm_max) ∧
    (v < c.pwm_min → (setPwm c v).1.pwm_value = 0) := by
  rw [setPwm_pwm_value_eq]
  unfold clampPwm
  dsimp only
  split_ifs <;> omega

/-- Witness for C3 on the default configuration with an oversized value. -/
theorem set_pwm_stored_value_invariant_witness :
    initFanControl.pwm_min ≤ initFanControl.pwm_max ∧
      (((setPwm initFanControl 100).1.pwm_value = 0 ∨
        (initFanControl.pwm_min ≤ (setPwm initFanControl 100).1.pwm_value ∧
          (setPwm initFanControl 100).1.pwm_value ≤ initFanControl.pwm_max)) ∧
      (100 > initFanControl.pwm_max → (setPwm initFanControl 100).1.pwm_value = initFanControl.pwm_max) ∧
      (100 < initFanControl.pwm_min → (setPwm initFanControl 100).1.pwm_value = 0)) :=
  ⟨by decide, set_pwm_stored_value_invariant initFanControl 100 (by decide)⟩

/-- C4 counterexample: for `value = 30` the rear-zone code emitted by
`set_pwm` is `0` (automatic mode), not `15`: the intermediate half-speed
value `15` falls below the `< 20` cutoff and is replaced by `"00"`. -/
theorem rear_zone_half_code_counterexample :
    (setPwm initFanControl 30).2 = some (0, 30, 30) ∧ rearCode 30 = 0 ∧ (0 : ℚ) ≠ 15 := by
  have h30 : rearCode 30 = 0 := rearCode_of_lt40 30 (by norm_num)
  refine ⟨?_, h30, by norm_num⟩
  norm_num [setPwm, clampPwm, initFanControl, h30]

/-- C4 amended: for `value = 30` the intermediate half-speed value is `15`
but the final rear-zone code is forced to `0` (automatic) because `15 < 20`;
for `value = 50` the rear-zone code is `50` (full); and whenever the
computed rear value is `< 20` the rear-zone code is forced to `0`. -/
theorem rear_zone_codes_amended :
    rawRear 30 = 15 ∧ rearCode 30 = 0 ∧ rearCode 50 = 50 ∧
      ∀ v : Int, rawRear v < 20 → rearCode v = 0 := by
  refine ⟨by norm_num [rawRear], rearCode_of_lt40 30 (by norm_num), ?_, ?_⟩
  · rw [rearCode_of_not_lt40 50 (by norm_num)]
    norm_num
  · intro v h
    unfold rearCode
    rw [if_pos h]

/-- Witness for the quantified part of the amended C4. -/
theorem rear_zone_codes_amended_witness :
    rawRear 12 < 20 ∧ rearCode 12 = 0 :=
  ⟨by norm_num [rawRear], rear_zone_codes_amended.2.2.2 12 (by norm_num [rawRear])⟩

/-- C5 counterexample: with the default `pwm_max = 64` and `percent = 3`,
the code computes `int(3 * 64 / 100) = 1` (truncation), while the claimed
`round(3 * 64 / 100)` is `2`. -/
theorem fan_speed_round_counterexample :
    fanSpeedPwm initFanControl 3 = 1 ∧ specFanSpeedPwm initFanControl 3 = 2 ∧
      (1 : Int) ≠ 2 := by
  refine ⟨?_, ?_, by decide⟩
  · unfold fanSpeedPwm pyInt
    rw [if_neg (by norm_num [initFanControl]), Int.floor_eq_iff]
    norm_num [initFanControl]
  · unfold specFanSpeedPwm
    rw [round_eq, Int.floor_eq_iff]
    norm_num [initFanControl]

/-- C5 amended: `set_fan_speed(percent)` converts the percentage to a raw
code by truncation toward zero of `percent * pwm_max / 100` (which is the
floor for nonnegative `percent` and `pwm_max`), stores the percentage, and
delegates exactly that code to `set_pwm`. -/
theorem fan_speed_truncation_amended (c : FCState) (percent : Int)
    (h0 : 0 ≤ percent) (h1 : 0 ≤ c.pwm_max) :
    fanSpeedPwm c percent = ⌊(percent : ℚ) * (c.pwm_max : ℚ) / 100⌋ ∧
      setFanSpeed c percent = setPwm { c with fan_speed := percent } (fanSpeedPwm c percent) := by
  constructor
  · unfold fanSpeedPwm pyInt
    have hq : (0 : ℚ) ≤ (percent : ℚ) * ((c.pwm_max : ℚ) / 100) := by
      apply mul_nonneg
      · exact_mod_cast h0
      · apply div_nonneg
        · exact_mod_cast h1
        · norm_num
    rw [if_neg (not_lt.mpr hq), mul_div_assoc]
  · rfl

/-- Witness for the amended C5 on the default configuration. -/
theorem fan_speed_truncation_amended_witness :
    (0 : Int) ≤ 50 ∧ (0 : Int) ≤ initFanControl.pwm_max ∧
      (fanSpeedPwm initFanControl 50 = ⌊(50 : ℚ) * (initFanControl.pwm_max : ℚ) / 100⌋ ∧
        setFanSpeed initFanControl 50 =
          setPwm { initFanControl with fan_speed := 50 } (fanSpeedPwm initFanControl 50)) :=
  ⟨by decide, by decide, fan_speed_truncation_amended initFanControl 50 (by decide) (by decide)⟩

/-- C6 counterexample: starting from a state whose `previous_pwm_value` is
already `50`, calling `set_pwm(50)` twice issues zero hardware writes, not
exactly one. -/
theorem set_pwm_double_write_counterexample :
    (setPwm fcPrevFifty 50).2 = none ∧ (setPwm (setPwm fcPrevFifty 50).1 50).2 = none := by
  refine ⟨by decide, by decide⟩

/-- C6 amended: calling `set_pwm(x)` twice in a row issues at most one
hardware write: the first call writes exactly when the clamped value
differs from `previous_pwm_value` (updating `previous_pwm_value` when it
writes), and the second call with the same `x` never writes. -/
theorem set_pwm_write_suppression_amended (c : FCState) (x : Int) :
    ((setPwm c x).2 = none ↔ clampPwm c x = c.previous_pwm_value) ∧
      (setPwm (setPwm c x).1 x).2 = none := by
  refine ⟨setPwm_write_none_iff c x, ?_⟩
  rw [setPwm_write_none_iff, setPwm_previous_eq]
  apply clampPwm_congr
  · exact congrArg (fun t => t.1) (setPwm_fcConfig c x)
  · exact congrArg (fun t => t.2.1) (setPwm_fcConfig c x)

/-- Witness for the amended C6 at a concrete state and value. -/
theorem set_pwm_write_suppression_amended_witness :
    ((setPwm initFanControl 50).2 = none ↔
        clampPwm initFanControl 50 = initFanControl.previous_pwm_value) ∧
      (setPwm (setPwm initFanControl 50).1 50).2 = none :=
  set_pwm_write_suppression_amended initFanControl 50

/-- C7: `get_highest_temperature` reduces the device readings by pairwise
maximum starting from the zero baseline; over the readings `[40, 55, 30]`
it returns `55`, and over an empty device set it returns `0`. -/
theorem highest_temperature_fold_max :
    (∀ l : List Int, getHighestTemperature l = l.foldl max 0) ∧
      getHighestTemperature [40, 55, 30] = 55 ∧ getHighestTemperature [] = 0 := by
  refine ⟨?_, by decide, by decide⟩
  intro l
  unfold getHighestTemperature
  have hfun : (fun highest t : Int => if t > highest then t else highest) = max := by
    funext a b
    rw [max_def]
    split_ifs <;> omega
  rw [hfun]

/-- C8 counterexample: the output `"Temperature_Celsius"` (the parameter
label with no value after it) is unparseable temperature output, yet the
sampling step raises an exception instead of yielding a `0` reading (the
bare `except:` handler itself hits an `IndexError`), and that exception
aborts the whole aggregation pass over the remaining devices. -/
theorem temperature_parse_abort_counterexample :
    getTemperature "Temperature_Celsius" = Except.error () ∧
      getTemperature "hello" = Except.ok 0 ∧
      temperaturePass ["hello", "Temperature_Celsius"] = Except.error () := by
  refine ⟨by rfl, by rfl, by rfl⟩

/-- C8 amended: a device whose temperature output does not contain the
parameter label at all yields a `0` reading, and a pass over devices whose
outputs all lack the label completes normally (yielding the `0` baseline);
but an output that contains the label with no parsable value field raises
an exception that aborts the whole pass. -/
theorem temperature_missing_parameter_amended :
    (∀ data : String, reGroup1 data "Temperature_Celsius" = none →
        getTemperature data = Except.ok 0) ∧
      (∀ outs : List String, (∀ o ∈ outs, reGroup1 o "Temperature_Celsius" = none) →
        temperaturePass outs = Except.ok 0) := by
  constructor
  · exact getTemperature_of_no_match
  · intro outs h
    simp only [temperaturePass, collectTemps_all_zero outs h,
      getHighestTemperature_replicate_zero]

/-- Witness for the amended C8 on a label-free output. -/
theorem temperature_missing_parameter_amended_witness :
    reGroup1 "hello" "Temperature_Celsius" = none ∧
      getTemperature "hello" = Except.ok 0 :=
  ⟨by rfl, temperature_missing_parameter_amended.1 "hello" (by rfl)⟩

/-- C9: when the running control loop is terminated by an interrupt, the
process forces the fan actuator to the configured safety duty cycle
(`set_pwm(pwm_safety)`, whose stored value is `pwm_safety` itself for any
configuration with `pwm_min ≤ pwm_safety ≤ pwm_max`) before exiting, and
exits with a non-zero status. -/
theorem interrupt_safety_shutdown (c0 : FCState) (p0 : PIDState) (temps : List Int)
    (h1 : c0.pwm_min ≤ c0.pwm_safety) (h2 : c0.pwm_safety ≤ c0.pwm_max) :
    (runMainInterrupted c0 p0 temps).1.chassis.pwm_value = c0.pwm_safety ∧
      (runMainInterrupted c0 p0 temps).2 ≠ 0 := by
  unfold runMainInterrupted
  dsimp only
  set s := temps.foldl loopIter { chassis := (setPwm c0 c0.pwm_min).1, pid := p0 } with hs
  have hcfg : fcConfig s.chassis = fcConfig c0 := by
    rw [hs, foldl_loopIter_fcConfig]
    exact setPwm_fcConfig c0 c0.pwm_min
  have hmin : s.chassis.pwm_min = c0.pwm_min := congrArg (fun t => t.1) hcfg
  have hmax : s.chassis.pwm_max = c0.pwm_max := congrArg (fun t => t.2.1) hcfg
  have hsafe : s.chassis.pwm_safety = c0.pwm_safety := congrArg (fun t => t.2.2) hcfg
  constructor
  · rw [setPwm_pwm_value_eq]
    unfold clampPwm
    rw [hmin, hmax, hsafe]
    dsimp only
    split_ifs <;> omega
  · norm_num

/-- Witness for C9 on the default configuration with two loop iterations. -/
theorem interrupt_safety_shutdown_witness :
    initFanControl.pwm_min ≤ initFanControl.pwm_safety ∧
      initFanControl.pwm_safety ≤ initFanControl.pwm_max ∧
      ((runMainInterrupted initFanControl pidDemo [45, 50]).1.chassis.pwm_value =
          initFanControl.pwm_safety ∧
        (runMainInterrupted initFanControl pidDemo [45, 50]).2 ≠ 0) :=
  ⟨by decide, by decide,
    interrupt_safety_shutdown initFanControl pidDemo [45, 50] (by decide) (by decide)⟩

/-- C10: the rear zone never receives a nonzero half-speed code: whenever
`value < 40` the computed half value is below the `20` cutoff, so every
rear-zone code in a hardware command emitted by `set_pwm` is either `0`
(automatic) or equal to the full clamped value. -/
theorem rear_zone_never_half_emitted :
    (∀ v : Int, v < 40 → rawRear v < 20) ∧
      ∀ (c : FCState) (x : Int) (r : ℚ) (f1 f2 : Int),
        (setPwm c x).2 = some (r, f1, f2) →
          (clampPwm c x < 40 → r = 0) ∧
          (r = 0 ∨ r = ((setPwm c x).1.pwm_value : ℚ)) := by
  constructor
  · intro v h
    unfold rawRear
    rw [if_pos h, div_lt_iff₀ (by norm_num : (0:ℚ) < 2)]
    norm_num
    exact_mod_cast h
  · intro c x r f1 f2 hw
    rw [setPwm_snd_eq] at hw
    have hr : r = rearCode (clampPwm c x) := by
      split at hw
      · cases hw
      · injection hw with hw1
        exact (congrArg (fun t => t.1) hw1).symm
    constructor
    · intro hlt
      rw [hr]
      exact rearCode_of_lt40 _ hlt
    · by_cases hlt : clampPwm c x < 40
      · left
        rw [hr]
        exact rearCode_of_lt40 _ hlt
      · right
        rw [hr, setPwm_pwm_value_eq]
        exact rearCode_of_not_lt40 _ hlt

/-- Witness for C10: a concrete emitted command at `value = 50`. -/
theorem rear_zone_never_half_emitted_witness :
    rawRear 30 < 20 ∧
      ((50 : ℚ) = 0 ∨ (50 : ℚ) = ((setPwm initFanControl 50).1.pwm_value : ℚ)) :=
  ⟨rear_zone_never_half_emitted.1 30 (by norm_num),
    (rear_zone_never_half_emitted.2 initFanControl 50 50 50 50 (by
      rw [setPwm_snd_eq]
      rw [if_neg (by norm_num [clampPwm, initFanControl])]
      rw [rearCode_of_not_lt40 _ (by norm_num [clampPwm, initFanControl])]
      norm_num [clampPwm, initFanControl])).2⟩
